import Mathlib

/-!
Shallow embedding of the statistical core of the `flow_analysis` repository
(flow.py, stats/bootstrap.py, stats/autocorrelation.py, measurements/scales.py,
measurements/Q.py), together with theorems settling the specification claims.

Numeric values are modelled as exact rationals (`ℚ`); numpy's floating point
arithmetic is idealised as exact real arithmetic.  Standard deviations, which
require a square root, are modelled in `ℝ` via `Real.sqrt`.  Fallible Python
code (raising exceptions) is modelled with `Except String`.  Calls into a
random generator are modelled by passing the generator's draws (lists of
chosen member indices) explicitly as arguments.
-/

namespace FlowAnalysis

/-- Arithmetic mean of a list, `numpy.mean`: sum divided by length
(division by zero yields 0 for the empty list, where numpy yields nan). -/
def listMean (xs : List ℚ) : ℚ := xs.sum / xs.length

/-- Population variance of a list, `numpy.var` (ddof = 0). -/
def listPVar (xs : List ℚ) : ℚ := listMean (xs.map (fun x => (x - listMean xs) ^ 2))

/-- Population standard deviation of a list, `numpy.std`:
square root of the population variance, taken in `ℝ`. -/
noncomputable def listStd (xs : List ℚ) : ℝ := Real.sqrt (listPVar xs)

/-- Successive differences `times[1:] - times[:-1]` — the `hs` property of
`FlowEnsemble` (flow.py). -/
def flowHs (times : List ℚ) : List ℚ :=
  List.zipWith (fun a b => b - a) times (times.drop 1)

/-- The `is_adaptive` property of `FlowEnsemble` (flow.py):
`(hs.max() - hs.min()) / hs.mean() > 1e-5`.  numpy's `max`/`min` fail on an
empty array, hence the `Except`. -/
def flowIsAdaptive (times : List ℚ) : Except String Bool :=
  let hs := flowHs times
  match hs.max?, hs.min? with
  | some mx, some mn => Except.ok (decide ((mx - mn) / listMean hs > 1 / 100000))
  | _, _ => Except.error "zero-size array to reduction operation"

/-- The `h` property of `FlowEnsemble` (flow.py): the mean step size, defined
only for non-adaptive (uniform within tolerance) time grids. -/
def flowH (times : List ℚ) : Except String ℚ := do
  let adaptive ← flowIsAdaptive times
  if adaptive then
    Except.error "Can't get single step size of adaptive flow."
  else
    Except.ok (listMean (flowHs times))

/-- Index of the first element strictly greater than `threshold`, if any. -/
def firstIdxGt (threshold : ℚ) : List ℚ → Option ℕ
  | [] => none
  | v :: rest => if threshold < v then some 0 else (firstIdxGt threshold rest).map (· + 1)

/-- `numpy.argmax(row > threshold)`: index of the first element strictly
greater than `threshold`, or 0 (argmax of an all-False array) if none is. -/
def argmaxGt (threshold : ℚ) (row : List ℚ) : ℕ :=
  (firstIdxGt threshold row).getD 0

/-- `threshold_interpolate(flow_ensemble, values, threshold)` from
measurements/scales.py.  `times` stands for `flow_ensemble.times`; `values` is
the row-major 2-D array of sampled curves.  The result carries the warned
fraction of non-crossing samples (`None` when no warning was emitted) and the
array returned by the Python function.  `values[tuple(zip(*enumerate(p)))]`
is numpy fancy indexing pairing row `r` (from `enumerate`) with column `p[r]`. -/
def interpolateAtPositions (times : List ℚ) (values : List (List ℚ)) (threshold : ℚ)
    (warned : Option ℚ) (positions : List ℕ) : Except String (Option ℚ × List ℚ) := do
  let h ← flowH times
  let interp := (List.range positions.length).map (fun r =>
    let p := positions.getD r 0
    let vm1 := (values.getD r []).getD (p - 1) 0
    let vp := (values.getD r []).getD p 0
    times.getD p 0 + h * ((threshold - vm1) / (vp - vm1)))
  Except.ok (warned, interp)

def threshold_interpolate (times : List ℚ) (values : List (List ℚ)) (threshold : ℚ) :
    Except String (Option ℚ × List ℚ) :=
  if values.any (fun row => decide (threshold ≤ row.getD 0 0)) then
    Except.error "Some or all flows start above threshold."
  else
    let positions := values.map (argmaxGt threshold)
    if positions.isEmpty then
      Except.error "min() arg is an empty sequence"
    else
      if positions.any (fun p => decide (p = 0)) then
        let badRat : ℚ := (positions.countP (fun p => decide (p = 0)) : ℚ) / (positions.length : ℚ)
        let kept := positions.filter (fun p => decide (0 < p))
        if kept.all (fun p => decide (p = 0)) then
          Except.error "No flows reach threshold."
        else
          interpolateAtPositions times values threshold (some badRat) kept
      else
        interpolateAtPositions times values threshold none positions

/-- The data of one configuration's `Flow` (flow.py): trajectory index,
ensemble label, and the per-flow-time value lists. -/
structure Flow where
  trajectory : ℤ
  ensemble : String
  Eps : List ℚ
  Ecs : List ℚ
  times : List ℚ
  Qs : List ℚ

/-- The mutable state of a `FlowEnsemble` (flow.py): accumulated per-member
lists, the shared time grid (`None` until the first append), the source
filename and the frozen flag. -/
structure FlowEnsemble where
  filename : String
  ensemble_names : List String
  trajectories : List ℤ
  Eps : List (List ℚ)
  Ecs : List (List ℚ)
  times : Option (List ℚ)
  Qs : List (List ℚ)
  frozen : Bool

/-- The exceptions `FlowEnsemble.append` can raise: `TypeError` on a frozen
ensemble, `ValueError` on a time-grid mismatch or an inconsistent length,
both naming the offending trajectory. -/
inductive AppendError where
  | frozenEnsemble : AppendError
  | timesMismatch (trajectory : ℤ) : AppendError
  | inconsistentLength (trajectory : ℤ) : AppendError
deriving DecidableEq

/-- Helper for `FlowEnsemble.append`: the length check and the list appends
(flow.py lines 63-72), reached after the frozen and time-grid checks. -/
def appendChecked (self : FlowEnsemble) (flow : Flow) : Option AppendError × FlowEnsemble :=
  if ¬(flow.times.length = flow.Eps.length ∧ flow.times.length = flow.Ecs.length ∧
      flow.times.length = flow.Qs.length) then
    (some (AppendError.inconsistentLength flow.trajectory), self)
  else
    (none, { self with
      ensemble_names := self.ensemble_names ++ [flow.ensemble]
      trajectories := self.trajectories ++ [flow.trajectory]
      Eps := self.Eps ++ [flow.Eps]
      Ecs := self.Ecs ++ [flow.Ecs]
      Qs := self.Qs ++ [flow.Qs] })

/-- `FlowEnsemble.append(flow)` (flow.py).  The pair result carries the raised
exception, if any, together with the ensemble state after the call (Python
raises before mutating, except that a first append sets `times` before the
length check, which the embedding mirrors). -/
def FlowEnsemble.append (self : FlowEnsemble) (flow : Flow) : Option AppendError × FlowEnsemble :=
  if self.frozen then
    (some AppendError.frozenEnsemble, self)
  else
    match self.times with
    | none => appendChecked { self with times := some flow.times } flow
    | some ts =>
        if flow.times ≠ ts then
          (some (AppendError.timesMismatch flow.trajectory), self)
        else
          appendChecked self flow

/-- The characters after the last `'/'` of a character list: the accumulator
is reset whenever a slash is read. -/
def afterLastSlash (cs : List Char) : List Char :=
  cs.foldl (fun acc c => if c = '/' then [] else acc ++ [c]) []

/-- `os.path.basename`: the part of the path after the last slash. -/
def basename (path : String) : String :=
  String.mk (afterLastSlash path.data)

/-- `int.from_bytes(bytes, "big")`: big-endian interpretation of a byte
sequence as a natural number. -/
def intFromBytesBig (bytes : List ℕ) : ℕ :=
  bytes.foldl (fun acc b => acc * 256 + b) 0

/-- The seed computed by `FlowEnsemble.get_rng` (flow.py):
`abs(int.from_bytes(hashlib.md5(basename(filename).encode()).digest(), "big"))`.
The MD5 digest is an unspecified pure function of its input string, passed
here as the parameter `md5`; `abs` is the identity on the non-negative result. -/
def FlowEnsemble.get_rng_seed (md5 : String → List ℕ) (self : FlowEnsemble) : ℕ :=
  intFromBytesBig (md5 (basename self.filename))

/-- `FlowEnsemble.get_Es(operator)` (flow.py): select `Eps` or `Ecs` by the
operator tag, raising `ValueError` on any other tag. -/
def FlowEnsemble.get_Es (self : FlowEnsemble) (operator : String) :
    Except String (List (List ℚ)) :=
  if operator = "plaq" then
    Except.ok self.Eps
  else if operator = "sym" then
    Except.ok self.Ecs
  else
    Except.error ("Invalid operator " ++ operator ++ ". Valid operators are plaq and sym.")

/-- `bootstrap_finalize(samples)` (stats/bootstrap.py):
`ufloat(mean(samples), std(samples))` as a (value, uncertainty) pair. -/
noncomputable def bootstrap_finalize (samples : List ℚ) : ℚ × ℝ :=
  (listMean samples, listStd samples)

/-- `basic_bootstrap(values, rng)` (stats/bootstrap.py).  The generator's 200
draws are passed explicitly: `idxs` lists, for each resample, the member
indices chosen by `rng.choice(values, len(values))`; each drawn sample is the
mean of the values at those indices. -/
noncomputable def basic_bootstrap (values : List ℚ) (idxs : List (List ℕ)) : ℚ × ℝ :=
  bootstrap_finalize (idxs.map (fun draw => listMean (draw.map (fun i => values.getD i 0))))

/-- `sample_bootstrap_1d(values, rng)` (stats/bootstrap.py) for a 2-D row-major
`values` indexed `[member, time]`.  `idxs` stands for the index matrix drawn by
`rng.integers(values.shape[0], size=(200, values.shape[0]))`; resample `d` at
time `t` is the mean over the drawn members' values at `t`. -/
def sample_bootstrap_1d (values : List (List ℚ)) (idxs : List (List ℕ)) : List (List ℚ) :=
  idxs.map (fun draw =>
    (List.range (values.headD []).length).map (fun t =>
      listMean (draw.map (fun i => (values.getD i []).getD t 0))))

/-- The time-point columns of a row-major 2-D array (one list per column
index of the first row). -/
def columnsOf (rows : List (List ℚ)) : List (List ℚ) :=
  (List.range (rows.headD []).length).map (fun j => rows.map (fun r => r.getD j 0))

/-- Modelled from the spec: `bootstrap_finalize_Nd(samples, axis)` is imported
by measurements/scales.py from stats/bootstrap.py but is missing there.  Per
the spec it reduces a resample array to (mean, standard deviation) along the
resample axis, operating per time point for vector-valued (2-D) inputs; along
axis 0 this is a per-column reduction, otherwise a per-row one. -/
noncomputable def bootstrap_finalize_Nd (samples : List (List ℚ)) (axis : ℕ) :
    List (ℚ × ℝ) :=
  if axis = 0 then
    (columnsOf samples).map (fun col => (listMean col, listStd col))
  else
    samples.map (fun row => (listMean row, listStd row))

/-- The `times` list of a frozen ensemble (set by its first append). -/
def FlowEnsemble.timesL (self : FlowEnsemble) : List ℚ :=
  self.times.getD []

/-- `compute_t2E_samples(flow_ensemble, operator)` (measurements/scales.py):
bootstrap-resample the selected energy densities and scale each resampled
curve elementwise by `times ** 2`.  `idxs` stands for the index matrix drawn
by the ensemble-seeded generator inside `sample_bootstrap_1d`. -/
def compute_t2E_samples (self : FlowEnsemble) (operator : String) (idxs : List (List ℕ)) :
    Except String (List (List ℚ)) := do
  let Es ← self.get_Es operator
  let bs_Es := sample_bootstrap_1d Es idxs
  Except.ok (bs_Es.map (fun row => List.zipWith (fun t e => t ^ 2 * e) self.timesL row))

/-- `compute_t2E_t(flow_ensemble, operator)` (measurements/scales.py):
mean and error of `t^2 E` per time point, via `bootstrap_finalize_Nd` on the
bootstrap samples along axis 0. -/
noncomputable def compute_t2E_t (self : FlowEnsemble) (operator : String)
    (idxs : List (List ℕ)) : Except String (List (ℚ × ℝ)) := do
  let t2E ← compute_t2E_samples self operator idxs
  Except.ok (bootstrap_finalize_Nd t2E 0)

/-- `compute_wt_samples(flow_ensemble, operator)` (measurements/scales.py):
from the bootstrap-resampled `t^2 E` curves, the centred finite difference
`times[1:-1] * (t2E[:, 2:] - t2E[:, :-2]) / (2 * h)` per resample. -/
def compute_wt_samples (self : FlowEnsemble) (operator : String) (idxs : List (List ℕ)) :
    Except String (List (List ℚ)) := do
  let Es ← self.get_Es operator
  let bs_Es := sample_bootstrap_1d Es idxs
  let times := self.timesL
  let h ← flowH times
  let t2E := bs_Es.map (fun row => List.zipWith (fun t e => t ^ 2 * e) times row)
  Except.ok (t2E.map (fun row =>
    (List.range (row.length - 2)).map (fun j =>
      times.getD (j + 1) 0 * (row.getD (j + 2) 0 - row.getD j 0) / (2 * h))))

/-- `compute_wt_t(flow_ensemble, operator)` (measurements/scales.py): mean and
error of the derivative per time point.  The source calls
`compute_wt_samples(flow_ensemble, operator="sym")`, passing the literal tag
`"sym"` rather than its own `operator` argument. -/
noncomputable def compute_wt_t (self : FlowEnsemble) (operator : String)
    (idxs : List (List ℕ)) : Except String (List (ℚ × ℝ)) := do
  let wt_samples ← compute_wt_samples self "sym" idxs
  Except.ok (bootstrap_finalize_Nd wt_samples 0)

/-- `autocorr(series, cutoff)` (stats/autocorrelation.py).  `cutoff = none`
models the default `None`; `if not cutoff` also treats an explicit 0 as unset.
The result array `acf` has `acf[0] = 1` and, for `1 ≤ i ≤ cutoff - 2`,
`acf[i] = mean(z[:-i] * z[i:]) / var(z)` with `z` the zero-centred series.
Assigning `acf[0]` on the empty array `zeros(cutoff - 1)` raises IndexError,
modelled by the `Except.error` branch. -/
def autocorr (series : List ℚ) (cutoff : Option ℕ) : Except String (List ℚ) :=
  let cutoff := match cutoff with
    | none => series.length / 2
    | some 0 => series.length / 2
    | some c => c
  if cutoff - 1 = 0 then
    Except.error "index 0 is out of bounds for axis 0 with size 0"
  else
    let z := series.map (fun x => x - listMean series)
    let v := listPVar z
    Except.ok (1 :: (List.range (cutoff - 2)).map (fun k =>
      let i := k + 1
      listMean (List.zipWith (fun a b => a * b) (z.take (series.length - i)) (z.drop i)) / v))

/-- `np.std(xs) > np.mean(xs)` for a list of rationals, expressed without the
square root: since the standard deviation is `√(pvar xs) ≥ 0`, it exceeds the
mean exactly when the mean is negative or the variance exceeds the squared
mean. -/
def stdExceedsMean (xs : List ℚ) : Bool :=
  decide (listMean xs < 0 ∨ (listMean xs) ^ 2 < listPVar xs)

/-- The degenerate-fit override of `exp_autocorrelation_fit` (lines 36-45 of
stats/autocorrelation.py), with the scipy `curve_fit` output — the fitted time
constant `tau` and its covariance-derived standard error `tauErr` — taken as
parameters, and `acf` the autocorrelation function of the series. -/
def exp_autocorrelation_fit_result (acf : List ℚ) (fit_range : ℕ) (tau tauErr : ℚ) :
    ℚ × ℚ :=
  if tau < 1 ∧ tauErr > 10 * tau then
    if stdExceedsMean ((acf.take fit_range).drop 1) then
      (0, 1 / 2)
    else
      (tau, tauErr)
  else
    (tau, tauErr)

/-- `numpy.round` of a rational to an integer: round half to even. -/
def npRound (q : ℚ) : ℤ :=
  let n := ⌊q⌋
  let f := q - n
  if f < 1 / 2 then n
  else if 1 / 2 < f then n + 1
  else if n % 2 = 0 then n else n + 1

/-- `flat_bin_Qs(Q_history)` (measurements/Q.py) for a plain history list:
round each value to an integer, count with a `Counter`, and return the dense
integer range `arange(range_min, -range_min + 1)` with
`range_min = min(min(bins), -max(bins)) - 1`, together with the per-integer
counts (zero where unobserved).  Python's `min`/`max` fail on an empty
`Counter`, modelled by the `Except.error` branch. -/
def flat_bin_Qs (Q_history : List ℚ) : Except String (List ℤ × List ℕ) :=
  let Q_bins := Q_history.map npRound
  match Q_bins.min?, Q_bins.max? with
  | some mn, some mx =>
      let range_min := min mn (-mx) - 1
      let range_max := -range_min + 1
      let Q_range := (List.range (range_max - range_min).toNat).map
        (fun (i : ℕ) => range_min + (i : ℤ))
      let Q_counts := Q_range.map (fun q => Q_bins.count q)
      Except.ok (Q_range, Q_counts)
  | _, _ => Except.error "min() arg is an empty sequence"


/-- C1: the spec claims threshold interpolation inverts linear interpolation —
for the identity curve `v[i] = t[i]` at unit spacing, interpolating to a
threshold strictly inside the range (here 3/2, with `v[0] = 0` below it)
should return the threshold.  The code instead returns 5/2 = 3/2 + h: it adds
the interpolated fraction to `times[idx]` (the first sample strictly past the
threshold) instead of `times[idx - 1]`, overshooting every crossing time by
one step. -/
theorem C1_threshold_identity_off_by_one :
    threshold_interpolate [0, 1, 2, 3] [[0, 1, 2, 3]] (3 / 2)
      = Except.ok (none, [5 / 2]) ∧ (5 / 2 : ℚ) ≠ 3 / 2 := by
  constructor
  · norm_num [threshold_interpolate, interpolateAtPositions, argmaxGt, firstIdxGt,
      flowH, flowIsAdaptive, flowHs, listMean, List.max?, List.min?, Bind.bind, Except.bind,
      List.range, List.range.loop]
  · norm_num

/-- C3: on an input whose first row never reaches the threshold 1/2 while its
second row crosses it (all rows starting strictly below), the code emits the
warning with the non-crossing fraction 1/2 and drops the bad row as claimed,
but the value it returns for the surviving row, 6, is not that row's
interpolated crossing time 2 + (1/2 - 3/10) / (2 - 3/10) = 36/17: after
filtering the positions, the `enumerate`-based fancy indexing pairs the kept
positions with rows 0..m-1 of `values`, here reading the dropped row 0 instead
of the surviving row 1. -/
theorem C3_dropped_rows_misaligned :
    threshold_interpolate [0, 1, 2] [[0, 1 / 10, 2 / 10], [0, 3 / 10, 2]] (1 / 2)
      = Except.ok (some (1 / 2), [6]) ∧
    (6 : ℚ) ≠ 2 + (1 / 2 - 3 / 10) / (2 - 3 / 10) := by
  constructor
  · norm_num [threshold_interpolate, interpolateAtPositions, argmaxGt, firstIdxGt,
      flowH, flowIsAdaptive, flowHs, listMean, List.max?, List.min?, Bind.bind, Except.bind,
      List.range, List.range.loop, List.filter]
  · norm_num

/-- C5: appending a flow whose time grid differs by value from the ensemble's
established grid fails with the consistency error naming the offending
trajectory and leaves the ensemble state unchanged, and appending to a frozen
ensemble fails with the frozen-ensemble error, also leaving it unchanged. -/
theorem C5_append_rejects_mismatch_and_frozen (ens : FlowEnsemble) (flow : Flow)
    (ts : List ℚ) :
    (ens.frozen = true → ens.append flow = (some AppendError.frozenEnsemble, ens)) ∧
    (ens.frozen = false → ens.times = some ts → flow.times ≠ ts →
      ens.append flow = (some (AppendError.timesMismatch flow.trajectory), ens)) := by
  constructor
  · intro hf
    simp [FlowEnsemble.append, hf]
  · intro hf hts hne
    simp [FlowEnsemble.append, hf, hts, hne]

theorem C5_append_rejects_witness :
    ((FlowEnsemble.mk "f" [] [] [] [] (some [0]) [] true).frozen = true ∧
      (FlowEnsemble.mk "f" [] [] [] [] (some [0]) [] true).append
          (Flow.mk 1 "" [] [] [0] [])
        = (some AppendError.frozenEnsemble,
           FlowEnsemble.mk "f" [] [] [] [] (some [0]) [] true)) ∧
    ((FlowEnsemble.mk "g" [] [] [] [] (some [0]) [] false).frozen = false ∧
      (Flow.mk 2 "" [] [] [1] []).times ≠ [0] ∧
      (FlowEnsemble.mk "g" [] [] [] [] (some [0]) [] false).append
          (Flow.mk 2 "" [] [] [1] [])
        = (some (AppendError.timesMismatch 2),
           FlowEnsemble.mk "g" [] [] [] [] (some [0]) [] false)) :=
  ⟨⟨rfl, (C5_append_rejects_mismatch_and_frozen _ _ [0]).1 rfl⟩,
   ⟨rfl, by norm_num,
    (C5_append_rejects_mismatch_and_frozen _ _ [0]).2 rfl rfl (by norm_num)⟩⟩

/-- C7: the seed of the ensemble-private random generator is a deterministic
pure function of the base name of the ensemble's source filename alone: two
ensembles whose filenames share a base name receive the identical seed, for
every digest function, with no dependence on process-level global random
state; repeated runs therefore draw from identically seeded generators. -/
theorem C7_seed_determined_by_basename (md5 : String → List ℕ)
    (e1 e2 : FlowEnsemble) (h : basename e1.filename = basename e2.filename) :
    e1.get_rng_seed md5 = e2.get_rng_seed md5 := by
  simp [FlowEnsemble.get_rng_seed, h]

theorem C7_seed_determined_witness :
    basename (FlowEnsemble.mk "runs/a/data.log" [] [] [] [] none [] true).filename
      = basename (FlowEnsemble.mk "other/data.log" [] [] [] [] none [] true).filename ∧
    (FlowEnsemble.mk "runs/a/data.log" [] [] [] [] none [] true).get_rng_seed
        (fun s => [s.length])
      = (FlowEnsemble.mk "other/data.log" [] [] [] [] none [] true).get_rng_seed
        (fun s => [s.length]) :=
  ⟨by decide, C7_seed_determined_by_basename (fun s => [s.length]) _ _ (by decide)⟩

/-- C10: `compute_wt_t` passes the literal tag `"sym"` to `compute_wt_samples`
regardless of its own `operator` argument, so for every ensemble and every
resample-index draw its result coincides with the `"sym"` result for every
operator tag, valid or invalid, and an unrecognized tag raises no error
through this entry point. -/
theorem C10_compute_wt_t_ignores_operator (ens : FlowEnsemble)
    (op : String) (idxs : List (List ℕ)) :
    compute_wt_t ens op idxs = compute_wt_t ens "sym" idxs := rfl


/-- C4: if the fitted time constant is below 1, its covariance-derived
uncertainty exceeds 10 times it, and the sample standard deviation of the
autocorrelation values at lags 1 through fit_range - 1 exceeds their sample
mean, then `exp_autocorrelation_fit` returns exactly (0, 1/2); if any of the
three joint conditions fails, the fitted constant and its standard error are
returned unmodified.  The scipy `curve_fit` output is a parameter of the
embedding. -/
theorem C4_degenerate_override (acf : List ℚ) (fr : ℕ) (tau tauErr : ℚ) :
    ((tau < 1 ∧ tauErr > 10 * tau ∧ stdExceedsMean ((acf.take fr).drop 1) = true) →
        exp_autocorrelation_fit_result acf fr tau tauErr = (0, 1 / 2)) ∧
    (¬(tau < 1 ∧ tauErr > 10 * tau ∧ stdExceedsMean ((acf.take fr).drop 1) = true) →
        exp_autocorrelation_fit_result acf fr tau tauErr = (tau, tauErr)) := by
  unfold exp_autocorrelation_fit_result
  constructor
  · rintro ⟨h1, h2, h3⟩
    rw [if_pos ⟨h1, h2⟩, if_pos h3]
  · intro h
    by_cases h12 : tau < 1 ∧ tauErr > 10 * tau
    · have h3 : ¬ stdExceedsMean ((acf.take fr).drop 1) = true :=
        fun hc => h ⟨h12.1, h12.2, hc⟩
      rw [if_pos h12, if_neg h3]
    · rw [if_neg h12]

theorem C4_degenerate_override_witness :
    ((1 / 2 : ℚ) < 1 ∧ (100 : ℚ) > 10 * (1 / 2) ∧
      stdExceedsMean ((([1, -1, -1] : List ℚ).take 3).drop 1) = true) ∧
    exp_autocorrelation_fit_result [1, -1, -1] 3 (1 / 2) 100 = (0, 1 / 2) :=
  ⟨⟨by norm_num, by norm_num, by norm_num [stdExceedsMean, listMean]⟩,
   (C4_degenerate_override [1, -1, -1] 3 (1 / 2) 100).1
     ⟨by norm_num, by norm_num, by norm_num [stdExceedsMean, listMean]⟩⟩

/-- C8 counterexample: `[0, 1]` is a non-constant finite series, yet `autocorr`
raises an IndexError instead of returning an array with value 1 at lag 0: the
default cutoff is `2 / 2 = 1`, so `acf = zeros(0)` is empty and the
assignment `acf[0] = 1` is out of bounds. -/
theorem C8_short_series_no_result :
    autocorr [0, 1] none
      = Except.error "index 0 is out of bounds for axis 0 with size 0" := by
  norm_num [autocorr]

/-- C8 amended: for every non-constant series of length at least 4 (so that the
default cutoff `len // 2` produces a non-empty result array), `autocorr`
returns an array whose lag-0 entry is exactly 1. -/
theorem C8_autocorr_lag0_one (series : List ℚ) (h4 : 4 ≤ series.length)
    (hnc : ∃ x ∈ series, x ≠ series.headD 0) :
    ∃ acf, autocorr series none = Except.ok acf ∧ acf.headD 0 = 1 := by
  have hc : ¬(series.length / 2 - 1 = 0) := by omega
  unfold autocorr
  rw [if_neg hc]
  exact ⟨_, rfl, rfl⟩

theorem C8_autocorr_lag0_one_witness :
    4 ≤ ([0, 1, 2, 3] : List ℚ).length ∧
    (∃ x ∈ ([0, 1, 2, 3] : List ℚ), x ≠ ([0, 1, 2, 3] : List ℚ).headD 0) ∧
    ∃ acf, autocorr [0, 1, 2, 3] none = Except.ok acf ∧ acf.headD 0 = 1 :=
  ⟨by norm_num, ⟨1, by norm_num, by norm_num⟩,
   C8_autocorr_lag0_one [0, 1, 2, 3] (by norm_num) ⟨1, by norm_num, by norm_num⟩⟩

/-- The mean of a constant list is the constant. -/
theorem listMean_replicate (n : ℕ) (hn : n ≠ 0) (c : ℚ) :
    listMean (List.replicate n c) = c := by
  have h : (n : ℚ) ≠ 0 := Nat.cast_ne_zero.mpr hn
  rw [listMean, List.sum_replicate, List.length_replicate, nsmul_eq_mul,
    mul_div_cancel_left₀ _ h]

/-- The population variance of a constant list is zero. -/
theorem listPVar_replicate (n : ℕ) (hn : n ≠ 0) (c : ℚ) :
    listPVar (List.replicate n c) = 0 := by
  rw [listPVar, listMean_replicate n hn, List.map_replicate, sub_self,
    zero_pow (by norm_num : (2 : ℕ) ≠ 0), listMean, List.sum_replicate, smul_zero,
    zero_div]

/-- C9: on a constant series of length N ≥ 1, `basic_bootstrap` — 200
resamples of size N with replacement, whatever member indices the generator
draws — returns the constant as the value and 0 as the uncertainty. -/
theorem C9_basic_bootstrap_constant (c : ℚ) (N : ℕ) (hN : 1 ≤ N)
    (idxs : List (List ℕ)) (h200 : idxs.length = 200)
    (hdraw : ∀ d ∈ idxs, d.length = N ∧ ∀ i ∈ d, i < N) :
    basic_bootstrap (List.replicate N c) idxs = (c, 0) := by
  have hfull : idxs.map (fun d => listMean (d.map (fun i => (List.replicate N c).getD i 0)))
      = List.replicate idxs.length c := by
    rw [List.eq_replicate_iff]
    refine ⟨by simp, ?_⟩
    intro b hb
    rcases List.mem_map.mp hb with ⟨d, hd, rfl⟩
    obtain ⟨hdl, hdi⟩ := hdraw d hd
    have hmap : d.map (fun i => (List.replicate N c).getD i 0) = List.replicate N c := by
      rw [List.eq_replicate_iff]
      refine ⟨by simp [hdl], ?_⟩
      intro b hb
      rcases List.mem_map.mp hb with ⟨i, hi, rfl⟩
      have hiN : i < N := hdi i hi
      simp [List.getD_eq_getElem?_getD, List.getElem?_replicate, hiN]
    rw [hmap, listMean_replicate N (by omega)]
  unfold basic_bootstrap bootstrap_finalize
  rw [hfull, h200, listMean_replicate 200 (by norm_num), listStd,
    listPVar_replicate 200 (by norm_num)]
  simp

theorem C9_basic_bootstrap_constant_witness :
    1 ≤ 2 ∧ (List.replicate 200 ([0, 1] : List ℕ)).length = 200 ∧
    (∀ d ∈ List.replicate 200 ([0, 1] : List ℕ), d.length = 2 ∧ ∀ i ∈ d, i < 2) ∧
    basic_bootstrap (List.replicate 2 (7 : ℚ)) (List.replicate 200 [0, 1]) = (7, 0) :=
  ⟨by norm_num, rfl,
   fun d hd => by rw [List.eq_of_mem_replicate hd]; exact ⟨rfl, by decide⟩,
   C9_basic_bootstrap_constant 7 2 (by norm_num) _ rfl
     (fun d hd => by rw [List.eq_of_mem_replicate hd]; exact ⟨rfl, by decide⟩)⟩

/-- C2: `bootstrap_finalize_Nd(samples, axis=0)` reduces a 2-D resample array
per time point: its j-th entry is the (mean, standard deviation) pair of the
j-th time column across resamples; and `compute_t2E_t` is exactly the image of
`compute_t2E_samples` under this axis-0 reduction. -/
theorem C2_finalize_Nd_per_time_point (samples : List (List ℚ)) (j : ℕ)
    (hj : j < (samples.headD []).length)
    (ens : FlowEnsemble) (op : String) (idxs : List (List ℕ)) :
    (bootstrap_finalize_Nd samples 0).getD j (0, 0)
        = (listMean (samples.map (fun row => row.getD j 0)),
           listStd (samples.map (fun row => row.getD j 0))) ∧
    compute_t2E_t ens op idxs
        = (compute_t2E_samples ens op idxs).map (fun s => bootstrap_finalize_Nd s 0) := by
  constructor
  · simp only [bootstrap_finalize_Nd, columnsOf, if_pos, List.map_map,
      List.getD_eq_getElem?_getD, List.getElem?_map, List.getElem?_range, hj]
    simp [hj]
  · unfold compute_t2E_t
    cases h : compute_t2E_samples ens op idxs <;>
      simp [h, Bind.bind, Except.bind, Except.map]

theorem C2_finalize_Nd_witness :
    0 < (([[0, 2]] : List (List ℚ)).headD []).length ∧
    ((bootstrap_finalize_Nd [[0, 2]] 0).getD 0 (0, 0)
        = (listMean (([[0, 2]] : List (List ℚ)).map (fun row => row.getD 0 0)),
           listStd (([[0, 2]] : List (List ℚ)).map (fun row => row.getD 0 0))) ∧
      compute_t2E_t (FlowEnsemble.mk "f" [] [] [[1, 2]] [[1, 2]] (some [0, 1]) [] true)
          "sym" [[0]]
        = (compute_t2E_samples (FlowEnsemble.mk "f" [] [] [[1, 2]] [[1, 2]] (some [0, 1]) [] true)
            "sym" [[0]]).map (fun s => bootstrap_finalize_Nd s 0)) :=
  ⟨by norm_num,
   C2_finalize_Nd_per_time_point [[0, 2]] 0 (by norm_num) _ "sym" [[0]]⟩


/-- Rounding an integer-valued rational returns that integer. -/
theorem npRound_intCast (z : ℤ) : npRound (z : ℚ) = z := by
  unfold npRound
  simp only [Int.floor_intCast, sub_self]
  norm_num

/-- C6: for every non-empty history, `flat_bin_Qs` returns the dense integer
range running from `min(observed_min, -observed_max) - 1` to its negation
inclusive, with each integer's count the number of history values rounding to
it (zero where unobserved); and on the input `[-1, 0, 0, 1, 1, 1]` it returns
exactly the range `[-2, -1, 0, 1, 2]` with counts `[0, 1, 2, 3, 0]`. -/
theorem C6_flat_bin_Qs_dense_symmetric (qs : List ℚ) (hne : qs ≠ []) :
    (∃ range counts mn mx,
      flat_bin_Qs qs = Except.ok (range, counts) ∧
      (qs.map npRound).min? = some mn ∧
      (qs.map npRound).max? = some mx ∧
      (∀ z : ℤ, z ∈ range ↔ min mn (-mx) - 1 ≤ z ∧ z ≤ -(min mn (-mx) - 1)) ∧
      counts = range.map (fun z => (qs.map npRound).count z)) ∧
    flat_bin_Qs [-1, 0, 0, 1, 1, 1] = Except.ok ([-2, -1, 0, 1, 2], [0, 1, 2, 3, 0]) := by
  constructor
  · have hne' : qs.map npRound ≠ [] := fun h => hne (List.map_eq_nil_iff.mp h)
    obtain ⟨mn, hmn⟩ : ∃ mn, (qs.map npRound).min? = some mn := by
      cases h : (qs.map npRound).min? with
      | none => exact absurd (List.min?_eq_none_iff.mp h) hne'
      | some a => exact ⟨a, rfl⟩
    obtain ⟨mx, hmx⟩ : ∃ mx, (qs.map npRound).max? = some mx := by
      cases h : (qs.map npRound).max? with
      | none => exact absurd (List.max?_eq_none_iff.mp h) hne'
      | some a => exact ⟨a, rfl⟩
    have hmnmem : mn ∈ qs.map npRound := List.min?_mem (fun a b => min_choice a b) hmn
    haveI : Std.Antisymm (fun x1 x2 : ℤ => x1 ≤ x2) :=
      ⟨fun h1 h2 => le_antisymm h1 h2⟩
    have hmxall : ∀ b ∈ qs.map npRound, b ≤ mx :=
      ((List.max?_eq_some_iff (fun a => le_refl a) (fun a b => max_choice a b)
        (fun a b c => max_le_iff)).mp hmx).2
    have hle : mn ≤ mx := hmxall mn hmnmem
    have hmin0 : min mn (-mx) ≤ 0 := by
      rcases le_total mn (-mx) with h | h
      · rw [min_eq_left h]; omega
      · rw [min_eq_right h]; omega
    have hfb : flat_bin_Qs qs = Except.ok
        ((List.range ((-(min mn (-mx) - 1) + 1) - (min mn (-mx) - 1)).toNat).map
            (fun (i : ℕ) => (min mn (-mx) - 1) + (i : ℤ)),
         ((List.range ((-(min mn (-mx) - 1) + 1) - (min mn (-mx) - 1)).toNat).map
            (fun (i : ℕ) => (min mn (-mx) - 1) + (i : ℤ))).map
              (fun q => (qs.map npRound).count q)) := by
      simp only [flat_bin_Qs]
      rw [hmn, hmx]
    refine ⟨_, _, mn, mx, hfb, hmn, hmx, ?_, rfl⟩
    intro z
    simp only [List.mem_map, List.mem_range]
    generalize hG : min mn (-mx) = m0 at hmin0 ⊢
    constructor
    · rintro ⟨i, hi, rfl⟩
      omega
    · intro hz
      exact ⟨(z - (m0 - 1)).toNat, by omega, by omega⟩
  · have hcast1 : ((-1 : ℚ)) = ((-1 : ℤ) : ℚ) := by norm_num
    have hcast2 : ((0 : ℚ)) = ((0 : ℤ) : ℚ) := by norm_num
    have hcast3 : ((1 : ℚ)) = ((1 : ℤ) : ℚ) := by norm_num
    have hmap : ([-1, 0, 0, 1, 1, 1] : List ℚ).map npRound
        = [-1, 0, 0, 1, 1, 1] := by
      simp only [List.map_cons, List.map_nil]
      rw [hcast1, hcast2, hcast3]
      simp only [npRound_intCast]
    simp only [flat_bin_Qs]
    rw [hmap]
    rfl


theorem C6_flat_bin_Qs_witness :
    ([-1, 0, 0, 1, 1, 1] : List ℚ) ≠ [] ∧
    ((∃ range counts mn mx,
      flat_bin_Qs [-1, 0, 0, 1, 1, 1] = Except.ok (range, counts) ∧
      (([-1, 0, 0, 1, 1, 1] : List ℚ).map npRound).min? = some mn ∧
      (([-1, 0, 0, 1, 1, 1] : List ℚ).map npRound).max? = some mx ∧
      (∀ z : ℤ, z ∈ range ↔ min mn (-mx) - 1 ≤ z ∧ z ≤ -(min mn (-mx) - 1)) ∧
      counts = range.map (fun z => (([-1, 0, 0, 1, 1, 1] : List ℚ).map npRound).count z)) ∧
    flat_bin_Qs [-1, 0, 0, 1, 1, 1] = Except.ok ([-2, -1, 0, 1, 2], [0, 1, 2, 3, 0])) :=
  ⟨by simp, C6_flat_bin_Qs_dense_symmetric [-1, 0, 0, 1, 1, 1] (by simp)⟩

end FlowAnalysis
